import Mathlib

/-!
Shallow embedding of the ShoreSquad weather pipeline.

The repository has two variants of the weather feature:
* a Singapore NEA variant (`fetchWeatherForecast`, `fetchCurrentTemp`,
  `getWeatherIcon`, `displayWeather`, `getCleanupRecommendation`), and
* an OpenWeatherMap variant in `js/app.js` (`fetchWeatherData`,
  `getMockWeatherData`, `getWeatherRecommendation`).
Both share the LocalStorage helpers (`saveToStorage`, `loadFromStorage`).

JavaScript strings are modelled as Lean `String`; JSON numbers as `Int`
where the source only ever holds integers (NEA forecast highs/lows) and as
`Rat` where fractional values occur (OpenWeatherMap temperatures, wind
speed, NEA realtime readings).  Network calls are modelled by an explicit
`FetchResult` environment value; mutation of `appState` and of the
LocalStorage blob is modelled by explicit state passing.
-/

namespace ShoreSquad

/-- JS `s.includes(pat)`: `pat` occurs as a contiguous substring of `s`.
Modelled on the character list of the string. -/
def jsIncludes (s pat : String) : Bool :=
  decide (pat.data <:+: s.data)

/-- JS `s.toLowerCase()`, modelled characterwise with `Char.toLower`
(all condition strings in the source are ASCII). -/
def jsToLower (s : String) : String :=
  String.mk (s.data.map Char.toLower)

/-! ### LocalStorage model (`saveToStorage` / `loadFromStorage`)

`localStorage` holds, under the fixed key `APP_CONFIG.storageKey`, a JSON
object; we model that object (already parsed) as an association list, and
JS property assignment `storageData[key] = data` as `objSet`.  A storage
failure (e.g. quota exceeded on `setItem`, which the source catches) is
modelled by the `setItemFails` flag. -/

/-- JS object property assignment on an association list: overwrite in
place if the key is present, else append at the end. -/
def objSet {α : Type} : List (String × α) → String → α → List (String × α)
  | [], k, v => [(k, v)]
  | (k', v') :: rest, k, v =>
    if k' = k then (k, v) :: rest else (k', v') :: objSet rest k v

/-- The state of the single storage blob kept under `APP_CONFIG.storageKey`,
together with whether the underlying `setItem` call throws. -/
structure StorageState (α : Type) where
  blob : List (String × α)
  setItemFails : Bool
deriving DecidableEq

/-- `saveToStorage(key, data)`: read the blob, set `storageData[key] = data`,
write it back, return `true`; on any thrown storage error return `false`
leaving the blob unchanged (the `try/catch` in the source). -/
def saveToStorage {α : Type} (st : StorageState α) (key : String) (data : α) :
    Bool × StorageState α :=
  if st.setItemFails then (false, st)
  else (true, { st with blob := objSet st.blob key data })

/-! ### NEA data model (the 4-day-forecast payload shapes) -/

/-- `{high, low}` pair used for `temperature` and `relative_humidity`. -/
structure NeaRange where
  high : Int
  low : Int
deriving DecidableEq

/-- One entry of `forecastData.items[0].forecasts`. -/
structure NeaDayForecast where
  date : String
  forecast : String
  temperature : NeaRange
  relative_humidity : NeaRange
deriving DecidableEq

/-- `forecastData.items[0].general` (only the `forecast` text is read;
`Option` models the field being absent). -/
structure NeaGeneral where
  forecast : Option String
deriving DecidableEq

/-- One entry of `forecastData.items`. -/
structure ForecastItem where
  forecasts : List NeaDayForecast
  general : Option NeaGeneral
deriving DecidableEq

/-- The 4-day forecast payload. -/
structure ForecastData where
  items : List ForecastItem
deriving DecidableEq

/-- One entry of `tempData.items[0].readings`. -/
structure TempReading where
  value : Rat
deriving DecidableEq

/-- One entry of `tempData.items`. -/
structure TempItem where
  readings : List TempReading
deriving DecidableEq

/-- The realtime air-temperature payload. -/
structure TempData where
  items : List TempItem
deriving DecidableEq

/-! ### Recommendation and icon functions (pure) -/

/-- `getCleanupRecommendation(todayForecast)` from the NEA variant:
case-insensitive substring checks on the condition text, then the
temperature threshold, in source order. -/
def getCleanupRecommendation (todayForecast : NeaDayForecast) : String :=
  if jsIncludes (jsToLower todayForecast.forecast) "thunder" ||
      jsIncludes (jsToLower todayForecast.forecast) "heavy rain" then
    "⚠️ Not ideal for cleanup today. Stay safe and check back tomorrow!"
  else if jsIncludes (jsToLower todayForecast.forecast) "shower" ||
      jsIncludes (jsToLower todayForecast.forecast) "rain" then
    "🌧️ Possible rain expected. Bring waterproof gear!"
  else if todayForecast.temperature.high > 32 then
    "🌡️ Hot day ahead! Remember sunscreen, hat, and plenty of water."
  else if jsIncludes (jsToLower todayForecast.forecast) "fair" ||
      jsIncludes (jsToLower todayForecast.forecast) "sunny" then
    "✨ Perfect weather for a beach cleanup! Let\x27s go! 🏖️"
  else
    "👍 Good conditions for cleanup. See you at the beach!"

/-- `getWeatherIcon(forecast)` from the NEA variant, source branch order:
thunder, rain/shower, cloudy, partly cloudy, fair/sunny, hazy, default. -/
def getWeatherIcon (forecast : String) : String :=
  if jsIncludes (jsToLower forecast) "thunder" then "⛈️"
  else if jsIncludes (jsToLower forecast) "rain" ||
      jsIncludes (jsToLower forecast) "shower" then "🌧️"
  else if jsIncludes (jsToLower forecast) "cloudy" then "☁️"
  else if jsIncludes (jsToLower forecast) "partly cloudy" then "⛅"
  else if jsIncludes (jsToLower forecast) "fair" ||
      jsIncludes (jsToLower forecast) "sunny" then "☀️"
  else if jsIncludes (jsToLower forecast) "hazy" then "🌫️"
  else "🌤️"

/-! ### Date formatting

`displayWeather` renders `new Date(day.date).toLocaleDateString('en-SG', ...)`
for each forecast entry.  NEA dates are ISO `YYYY-MM-DD` strings, which JS
parses as UTC midnight; in the Singapore locale/timezone (UTC+8) this is the
same calendar date, so the weekday is the civil weekday of `(y, m, d)`.
The weekday is computed with the standard civil-calendar day count
(Gregorian, 400-year cycle of exactly 146097 days = 20871 weeks). -/

/-- Split a character list at every occurrence of `c`. -/
def splitAtChar (c : Char) : List Char → List (List Char)
  | [] => [[]]
  | a :: rest =>
    match splitAtChar c rest with
    | [] => if a = c then [[], []] else [[a]]
    | g :: gs => if a = c then [] :: g :: gs else (a :: g) :: gs

/-- Parse a nonempty all-digit character list as a decimal number. -/
def digitsToNat? (l : List Char) : Option Nat :=
  if l = [] then none
  else
    l.foldl
      (fun acc c =>
        match acc with
        | some n => if c.isDigit then some (n * 10 + (c.toNat - 48)) else none
        | none => none)
      (some 0)

/-- Parse an ISO `YYYY-MM-DD` date string; `none` models a JS
`Invalid Date`. -/
def parseIsoDate (s : String) : Option (Nat × Nat × Nat) :=
  match splitAtChar '-' s.data with
  | [ys, ms, ds] =>
    match digitsToNat? ys, digitsToNat? ms, digitsToNat? ds with
    | some y, some m, some d =>
      if 1 ≤ m && m ≤ 12 && 1 ≤ d && d ≤ 31 then some (y, m, d) else none
    | _, _, _ => none
  | _ => none

/-- Index of the weekday of civil date `(y, m, d)`, with `0 = Sunday`. -/
def weekdayIndex (y m d : Nat) : Nat :=
  let yAdj := if m ≤ 2 then y - 1 else y
  let era := yAdj / 400
  let yoe := yAdj % 400
  let mp := if m > 2 then m - 3 else m + 9
  let doy := (153 * mp + 2) / 5 + d - 1
  let doe := yoe * 365 + yoe / 4 - yoe / 100 + doy
  (era * 146097 + doe + 3) % 7

/-- Short weekday names produced by `toLocaleDateString('en-SG',
\x7b weekday: 'short' \x7d)`. -/
def weekdayShortNames : List String :=
  ["Sun", "Mon", "Tue", "Wed", "Thu", "Fri", "Sat"]

/-- Short month names produced by `toLocaleDateString('en-SG',
\x7b month: 'short' \x7d)`. -/
def monthShortNames : List String :=
  ["Jan", "Feb", "Mar", "Apr", "May", "Jun",
   "Jul", "Aug", "Sep", "Oct", "Nov", "Dec"]

/-- `date.toLocaleDateString('en-SG', \x7b weekday: 'short' \x7d)`. -/
def localeWeekdayShort (date : String) : String :=
  match parseIsoDate date with
  | some (y, m, d) => weekdayShortNames.getD (weekdayIndex y m d) "Sun"
  | none => "Invalid Date"

/-- `date.toLocaleDateString('en-SG', \x7b month: 'short', day: 'numeric' \x7d)`. -/
def localeMonthDay (date : String) : String :=
  match parseIsoDate date with
  | some (_, m, d) => monthShortNames.getD (m - 1) "Jan" ++ " " ++ toString d
  | none => "Invalid Date"

/-! ### The NEA fetch-and-render pipeline (`displayWeather`)

The network environment of one call is a pair of `FetchResult`s, one per
endpoint; `appState` and the storage blob are threaded explicitly. -/

/-- How a `fetch` of one endpoint settles: resolved with parsed JSON, a
non-OK HTTP response, a network rejection, or a `response.json()` failure. -/
inductive FetchResult (α : Type)
  | ok (data : α)
  | httpNotOk
  | networkError
  | jsonError
deriving DecidableEq

/-- The mutable state touched by the pipeline: the LocalStorage blob and
`appState.currentWeather`. -/
structure AppState where
  storage : StorageState ForecastData
  currentWeather : Option ForecastData
deriving DecidableEq

/-- `fetchWeatherForecast()`: on success, store the payload in
`appState.currentWeather` and `saveToStorage('weatherForecast', data)`
(ignoring its Bool result) and return the payload; any failure is caught
and `null` is returned with no state change. -/
def fetchWeatherForecast (resp : FetchResult ForecastData) (st : AppState) :
    Option ForecastData × AppState :=
  match resp with
  | .ok data =>
    let save := saveToStorage st.storage "weatherForecast" data
    (some data, { storage := save.2, currentWeather := some data })
  | _ => (none, st)

/-- `fetchCurrentTemp()`: return the payload on success, `null` on any
caught failure; no state is touched. -/
def fetchCurrentTemp (resp : FetchResult TempData) : Option TempData :=
  match resp with
  | .ok data => some data
  | _ => none

/-- The `currentTemp` expression in `displayWeather`:
`tempData && tempData.items && tempData.items[0].readings.length > 0 ?
tempData.items[0].readings[0].value : null`.  When `items` is the empty
array (truthy in JS) the access `items[0].readings` throws a `TypeError`,
modelled by `Except.error`. -/
def computeCurrentTemp : Option TempData → Except Unit (Option Rat)
  | none => .ok none
  | some td =>
    match td.items with
    | [] => .error ()
    | item :: _ =>
      match item.readings with
      | [] => .ok none
      | r :: _ => .ok (some r.value)

/-- The data interpolated into one `forecast-card` div. -/
structure ForecastCard where
  dayName : String
  dateStr : String
  icon : String
  tempHigh : Int
  tempLow : Int
  desc : String
  humidityHigh : Int
deriving DecidableEq

/-- The card built for `forecasts[index]` by the `forecasts.map` callback. -/
def mkForecastCard (index : Nat) (day : NeaDayForecast) : ForecastCard :=
  { dayName := if index = 0 then "Today" else localeWeekdayShort day.date
    dateStr := localeMonthDay day.date
    icon := getWeatherIcon day.forecast
    tempHigh := day.temperature.high
    tempLow := day.temperature.low
    desc := day.forecast
    humidityHigh := day.relative_humidity.high }

/-- JS `Array.prototype.map` with the element index, as used by
`forecasts.map((day, index) => ...)`. -/
def mapWithIndex {α β : Type} (f : Nat → α → β) : Nat → List α → List β
  | _, [] => []
  | i, a :: rest => f i a :: mapWithIndex f (i + 1) rest

/-- The list of forecast cards (`forecastCards` in the source). -/
def forecastCardsOf (forecasts : List NeaDayForecast) : List ForecastCard :=
  mapWithIndex mkForecastCard 0 forecasts

/-- The general-forecast footer text:
`generalForecast = forecastData.items[0].general || \x7b\x7d` followed by the
truthiness test `generalForecast.forecast ? ... : ''` (so an absent field
and the empty string both render nothing). -/
def generalTextOf (item : ForecastItem) : Option String :=
  match (item.general.getD { forecast := none }).forecast with
  | some s => if s = "" then none else some s
  | none => none

/-- The data interpolated into the success branch of the weather widget. -/
structure WeatherSuccess where
  currentTemp : Option Rat
  cards : List ForecastCard
  recommendation : String
  generalText : Option String
deriving DecidableEq

/-- What `displayWeather` leaves in the widget: the populated forecast
markup, or the error markup with its Retry button. -/
inductive RenderResult
  | success (payload : WeatherSuccess)
  | failure (message : String) (retryable : Bool)
deriving DecidableEq

/-- The `try` block of `displayWeather` after both fetches settle: throw
(yielding the failure widget) when the primary payload is missing, has no
`items`, when the `currentTemp` access throws, or when `forecasts` is empty
(then `getCleanupRecommendation(forecasts[0])` reads `.forecast` of
`undefined`); otherwise build the success widget. -/
def renderWeatherWidget (forecastData : Option ForecastData)
    (tempData : Option TempData) : RenderResult :=
  match forecastData with
  | none => .failure "Unable to load weather forecast" true
  | some fd =>
    match fd.items with
    | [] => .failure "Unable to load weather forecast" true
    | item :: _ =>
      match computeCurrentTemp tempData with
      | .error _ => .failure "Unable to load weather forecast" true
      | .ok currentTemp =>
        match item.forecasts with
        | [] => .failure "Unable to load weather forecast" true
        | today :: _ =>
          .success
            { currentTemp := currentTemp
              cards := forecastCardsOf item.forecasts
              recommendation := getCleanupRecommendation today
              generalText := generalTextOf item }

/-- `displayWeather()`: run both fetches (`Promise.all`), then render.
Only `fetchWeatherForecast` touches state; the render step is pure. -/
def displayWeather (primaryResp : FetchResult ForecastData)
    (secondaryResp : FetchResult TempData) (st : AppState) :
    RenderResult × AppState :=
  let fetched := fetchWeatherForecast primaryResp st
  (renderWeatherWidget fetched.1 (fetchCurrentTemp secondaryResp), fetched.2)

/-! ### OpenWeatherMap variant (`js/app.js`) -/

/-- One entry of the OWM `weather` array. -/
structure OwmWeatherEntry where
  main : String
  description : String
  icon : String
deriving DecidableEq

/-- The OWM `main` block. -/
structure OwmMain where
  temp : Rat
  feels_like : Rat
  humidity : Rat
deriving DecidableEq

/-- The OWM `wind` block. -/
structure OwmWind where
  speed : Rat
deriving DecidableEq

/-- The OWM current-conditions payload (fields the source reads). -/
structure OwmData where
  name : String
  main : OwmMain
  weather : List OwmWeatherEntry
  wind : OwmWind
  visibility : Rat
deriving DecidableEq

/-- `getMockWeatherData()`: the fixed development snapshot. -/
def getMockWeatherData : OwmData :=
  { name := "Sample Beach"
    main := { temp := 24, feels_like := 23, humidity := 65 }
    weather := [{ main := "Clear", description := "clear sky", icon := "01d" }]
    wind := { speed := 26 / 5 }
    visibility := 10000 }

/-- The mutable state touched by the OWM fetch: the storage blob and
`appState.currentWeather`. -/
structure OwmAppState where
  storage : StorageState OwmData
  currentWeather : Option OwmData
deriving DecidableEq

/-- `fetchWeatherData(lat, lon)`: on success, record the payload in
`appState.currentWeather`, `saveToStorage('currentWeather', data)` and
return it; on a non-OK response, network rejection or JSON failure the
`catch` returns `getMockWeatherData()` with no state change. -/
def fetchWeatherData (resp : FetchResult OwmData) (st : OwmAppState) :
    OwmData × OwmAppState :=
  match resp with
  | .ok data =>
    let save := saveToStorage st.storage "currentWeather" data
    (data, { storage := save.2, currentWeather := some data })
  | _ => (getMockWeatherData, st)

/-- `getWeatherRecommendation(weatherData)` from `js/app.js`: exact
equality on `weather[0].main`, then temperature thresholds.  `none` models
the `TypeError` thrown when the `weather` array is empty. -/
def getWeatherRecommendation (weatherData : OwmData) : Option String :=
  match weatherData.weather with
  | [] => none
  | w :: _ =>
    some
      (if w.main = "Rain" || w.main = "Thunderstorm" then
        "🌧️ Not ideal for cleanup today. Check back tomorrow!"
      else if weatherData.main.temp > 30 then
        "🌡️ Hot day! Remember sunscreen and hydration."
      else if weatherData.main.temp < 15 then
        "🧥 Bit chilly! Bring a jacket for the cleanup."
      else
        "✨ Perfect weather for a beach cleanup!")

/-! ### Supporting lemmas -/

/-- Substring containment is monotone along infixes of the pattern. -/
theorem jsIncludes_mono {s p q : String} (hqp : q.data <:+: p.data)
    (h : jsIncludes s p = true) : jsIncludes s q = true := by
  unfold jsIncludes at h ⊢
  exact decide_eq_true (hqp.trans (of_decide_eq_true h))

/-- A string containing "partly cloudy" also contains "cloudy". -/
theorem includes_partly_cloudy_includes_cloudy {s : String}
    (h : jsIncludes s "partly cloudy" = true) : jsIncludes s "cloudy" = true :=
  jsIncludes_mono (by decide) h

/-- `objSet` stores the assigned key. -/
theorem lookup_objSet_self {α : Type} (l : List (String × α)) (k : String) (v : α) :
    (objSet l k v).lookup k = some v := by
  induction l with
  | nil => simp [objSet, List.lookup]
  | cons p rest ih =>
    obtain ⟨k', v'⟩ := p
    by_cases h : k' = k
    · subst h
      simp [objSet, List.lookup]
    · have hbeq : (k == k') = false := beq_eq_false_iff_ne.mpr (Ne.symm h)
      simp [objSet, h, List.lookup, hbeq, ih]

/-- `objSet` leaves every other key unchanged. -/
theorem lookup_objSet_other {α : Type} (l : List (String × α)) (k k' : String) (v : α)
    (h : k' ≠ k) : (objSet l k v).lookup k' = l.lookup k' := by
  have hbeq : (k' == k) = false := beq_eq_false_iff_ne.mpr h
  induction l with
  | nil => simp [objSet, List.lookup, hbeq]
  | cons p rest ih =>
    obtain ⟨k'', v''⟩ := p
    by_cases hk : k'' = k
    · subst hk
      simp [objSet, List.lookup, hbeq]
    · simp [objSet, hk, List.lookup, ih]

/-- `mapWithIndex` preserves length. -/
theorem mapWithIndex_length {α β : Type} (f : Nat → α → β) :
    ∀ (i : Nat) (l : List α), (mapWithIndex f i l).length = l.length := by
  intro i l
  induction l generalizing i with
  | nil => rfl
  | cons a rest ih => simp [mapWithIndex, ih]

/-- Projecting an index-independent field out of `mapWithIndex` is a plain map. -/
theorem mapWithIndex_map_eq {α β γ : Type} (f : Nat → α → β) (g : β → γ) (h : α → γ)
    (hgf : ∀ i a, g (f i a) = h a) :
    ∀ (i : Nat) (l : List α), (mapWithIndex f i l).map g = l.map h := by
  intro i l
  induction l generalizing i with
  | nil => rfl
  | cons a rest ih => simp [mapWithIndex, hgf, ih]

/-- From index 1 on, every card's label is the weekday name of its date. -/
theorem mapWithIndex_dayName_from_one :
    ∀ (i : Nat) (l : List NeaDayForecast), 1 ≤ i →
      (mapWithIndex mkForecastCard i l).map ForecastCard.dayName =
        l.map (fun d => localeWeekdayShort d.date) := by
  intro i l
  induction l generalizing i with
  | nil => intro _; rfl
  | cons a rest ih =>
    intro hi
    have hne : i ≠ 0 := by omega
    simp [mapWithIndex, mkForecastCard, hne, ih (i + 1) (by omega)]

/-- The weekday label of any date string is never "Today". -/
theorem localeWeekdayShort_ne_today (date : String) :
    localeWeekdayShort date ≠ "Today" := by
  unfold localeWeekdayShort
  cases h : parseIsoDate date with
  | none => decide
  | some ymd =>
    obtain ⟨y, m, d⟩ := ymd
    have h7 : weekdayIndex y m d < 7 := by
      simp only [weekdayIndex]
      exact Nat.mod_lt _ (by norm_num)
    have hall : ∀ i, i < 7 → weekdayShortNames.getD i "Sun" ≠ "Today" := by decide
    exact hall _ h7

/-! ### Concrete inputs used by witnesses and counterexamples -/

/-- The C5 example input: condition "Heavy Rain Shower", `highC = 29`. -/
def heavyRainShowerDay : NeaDayForecast :=
  { date := "2025-12-05", forecast := "Heavy Rain Shower",
    temperature := { high := 29, low := 24 },
    relative_humidity := { high := 95, low := 70 } }

/-- The C6 example input for the NEA variant: condition "Clear", `highC = 34`. -/
def clearHotDay : NeaDayForecast :=
  { date := "2025-12-05", forecast := "Clear",
    temperature := { high := 34, low := 27 },
    relative_humidity := { high := 85, low := 55 } }

/-- The C6 example input for the OWM variant: condition "Clear", temp 34. -/
def clearHotOwm : OwmData :=
  { name := "East Coast Park"
    main := { temp := 34, feels_like := 36, humidity := 70 }
    weather := [{ main := "Clear", description := "clear sky", icon := "01d" }]
    wind := { speed := 3 }
    visibility := 10000 }

/-! ### Claims -/

/-- C1: the recommendation uses case-insensitive substring checks with the
severe-precipitation rule first, so any condition text containing both
"thunder" and "sunny" yields the severe-weather safety message, not the
positive clear/sunny message. -/
theorem thunder_outranks_sunny (f : NeaDayForecast)
    (ht : jsIncludes (jsToLower f.forecast) "thunder" = true)
    (hs : jsIncludes (jsToLower f.forecast) "sunny" = true) :
    getCleanupRecommendation f =
      "⚠️ Not ideal for cleanup today. Stay safe and check back tomorrow!" := by
  simp [getCleanupRecommendation, ht]

/-- Witness for C1 at condition "Thundery Showers, Sunny Spells". -/
theorem thunder_outranks_sunny_witness :
    jsIncludes (jsToLower "Thundery Showers, Sunny Spells") "thunder" = true ∧
    jsIncludes (jsToLower "Thundery Showers, Sunny Spells") "sunny" = true ∧
    getCleanupRecommendation
        { date := "2025-12-05", forecast := "Thundery Showers, Sunny Spells",
          temperature := { high := 31, low := 25 },
          relative_humidity := { high := 95, low := 65 } } =
      "⚠️ Not ideal for cleanup today. Stay safe and check back tomorrow!" :=
  ⟨by decide, by decide, thunder_outranks_sunny _ (by decide) (by decide)⟩

/-- C5 counterexample: for condition "Heavy Rain Shower" with high 29 the
function does not return the gear-warning rain message (it matches the
"heavy rain" test of the severe rule first). -/
theorem heavy_rain_shower_not_gear_message :
    getCleanupRecommendation heavyRainShowerDay ≠
      "🌧️ Possible rain expected. Bring waterproof gear!" := by decide

/-- C5 (amended): for condition "Heavy Rain Shower" with high 29 the result
is the severe-weather safety message, because "heavy rain" is matched by
the severe-precipitation rule, which precedes the shower/rain check. -/
theorem heavy_rain_shower_gets_severe_message :
    getCleanupRecommendation heavyRainShowerDay =
      "⚠️ Not ideal for cleanup today. Stay safe and check back tomorrow!" ∧
    jsIncludes (jsToLower heavyRainShowerDay.forecast) "heavy rain" = true :=
  ⟨by decide, by decide⟩

/-- C6: for condition "Clear" with temperature 34 both recommendation
variants return their heat-warning message, since the temperature
threshold is checked before the clear/sunny rule. -/
theorem clear_hot_gets_heat_warning :
    getCleanupRecommendation clearHotDay =
      "🌡️ Hot day ahead! Remember sunscreen, hat, and plenty of water." ∧
    getWeatherRecommendation clearHotOwm =
      some "🌡️ Hot day! Remember sunscreen and hydration." :=
  ⟨by decide, by decide⟩

/-- C9: after a successful `saveToStorage k v` the blob maps `k` to `v` and
every other key is unchanged; on a storage error it returns `false` with
the blob untouched. -/
theorem saveToStorage_frame {α : Type} (st : StorageState α) (k : String) (v : α) :
    (st.setItemFails = false →
      (saveToStorage st k v).1 = true ∧
      (saveToStorage st k v).2.blob.lookup k = some v ∧
      ∀ k', k' ≠ k → (saveToStorage st k v).2.blob.lookup k' = st.blob.lookup k') ∧
    (st.setItemFails = true → saveToStorage st k v = (false, st)) := by
  constructor
  · intro hok
    refine ⟨?_, ?_, ?_⟩
    · simp [saveToStorage, hok]
    · simp [saveToStorage, hok, lookup_objSet_self]
    · intro k' hne
      simp [saveToStorage, hok, lookup_objSet_other _ _ _ _ hne]
  · intro hfail
    simp [saveToStorage, hfail]

/-- Witness for C9 on a concrete two-entry blob. -/
theorem saveToStorage_frame_witness :
    (saveToStorage { blob := [("a", "1"), ("b", "2")], setItemFails := false } "b" "9").1 =
      true ∧
    (saveToStorage { blob := [("a", "1"), ("b", "2")], setItemFails := false } "b" "9").2.blob.lookup
        "b" = some "9" ∧
    (saveToStorage { blob := [("a", "1"), ("b", "2")], setItemFails := false } "b" "9").2.blob.lookup
        "a" = some "1" ∧
    saveToStorage { blob := [("a", "1")], setItemFails := true } "b" "9" =
      (false, { blob := [("a", "1")], setItemFails := true }) := by
  have h := saveToStorage_frame
    { blob := [("a", "1"), ("b", "2")], setItemFails := false } "b" "9"
  have h' := saveToStorage_frame
    ({ blob := [("a", "1")], setItemFails := true } : StorageState String) "b" "9"
  exact ⟨(h.1 rfl).1, (h.1 rfl).2.1,
    by rw [(h.1 rfl).2.2 "a" (by decide)]; decide,
    h'.2 rfl⟩

/-- C10 counterexample: an input containing "partly cloudy" together with
"thunder" receives the thunder icon, not the plain cloudy icon. -/
theorem partly_cloudy_with_thunder_icon :
    jsIncludes (jsToLower "Thundery, Partly Cloudy") "partly cloudy" = true ∧
    getWeatherIcon "Thundery, Partly Cloudy" = "⛈️" ∧
    getWeatherIcon "Thundery, Partly Cloudy" ≠ "☁️" :=
  ⟨by decide, by decide, by decide⟩

/-- C10 (amended): the partly-cloudy branch of `getWeatherIcon` is
unreachable — no input ever yields the partly-cloudy icon, since any text
containing "partly cloudy" is captured by the earlier cloudy rule; inputs
containing "partly cloudy" that match none of the earlier thunder/rain/
shower rules receive the plain cloudy icon. -/
theorem partly_cloudy_branch_unreachable (s : String) :
    getWeatherIcon s ≠ "⛅" ∧
    (jsIncludes (jsToLower s) "partly cloudy" = true →
      jsIncludes (jsToLower s) "thunder" = false →
      jsIncludes (jsToLower s) "rain" = false →
      jsIncludes (jsToLower s) "shower" = false →
      getWeatherIcon s = "☁️") := by
  constructor
  · unfold getWeatherIcon
    split_ifs with h1 h2 h3 h4 h5 h6
    · decide
    · decide
    · decide
    · exact absurd (includes_partly_cloudy_includes_cloudy h4) h3
    · decide
    · decide
    · decide
  · intro hp ht hr hs
    have hc : jsIncludes (jsToLower s) "cloudy" = true :=
      includes_partly_cloudy_includes_cloudy hp
    simp [getWeatherIcon, ht, hr, hs, hc]

/-- Witness for C10 at input "Partly Cloudy". -/
theorem partly_cloudy_branch_unreachable_witness :
    getWeatherIcon "Partly Cloudy" ≠ "⛅" ∧ getWeatherIcon "Partly Cloudy" = "☁️" :=
  ⟨(partly_cloudy_branch_unreachable "Partly Cloudy").1,
    (partly_cloudy_branch_unreachable "Partly Cloudy").2
      (by decide) (by decide) (by decide) (by decide)⟩

/-! ### Pipeline claims -/

/-- The fresh app state: empty storage blob, no cached weather. -/
def emptyAppState : AppState :=
  { storage := { blob := [], setItemFails := false }, currentWeather := none }

/-- A one-day fair-weather NEA payload used as a concrete input. -/
def fairDay : NeaDayForecast :=
  { date := "2025-12-05", forecast := "Fair",
    temperature := { high := 30, low := 25 },
    relative_humidity := { high := 90, low := 60 } }

/-- A showery second day used in the two-day payload. -/
def rainyDay : NeaDayForecast :=
  { date := "2025-12-06", forecast := "Showers",
    temperature := { high := 31, low := 26 },
    relative_humidity := { high := 95, low := 70 } }

/-- The payload item holding only `fairDay`. -/
def fairItem : ForecastItem := { forecasts := [fairDay], general := none }

/-- The one-day payload. -/
def fairForecastData : ForecastData := { items := [fairItem] }

/-- The payload item holding `fairDay` and `rainyDay` plus a general text. -/
def twoDayItem : ForecastItem :=
  { forecasts := [fairDay, rainyDay],
    general := some { forecast := some "Daily showers expected." } }

/-- The two-day payload. -/
def twoDayForecastData : ForecastData := { items := [twoDayItem] }

/-- A realtime payload with a single 29.5°C reading. -/
def sampleTempData : TempData := { items := [{ readings := [{ value := 59 / 2 }] }] }

/-- C2 counterexample: when the primary source resolves with an empty
`items` payload the call fails with the retry affordance, yet
`fetchWeatherForecast` has already written the payload to the store during
that call. -/
theorem empty_payload_fails_but_writes_store :
    (displayWeather (FetchResult.ok { items := [] }) FetchResult.httpNotOk emptyAppState).1 =
      RenderResult.failure "Unable to load weather forecast" true ∧
    (displayWeather (FetchResult.ok { items := [] }) FetchResult.httpNotOk
          emptyAppState).2.storage.blob =
      [("weatherForecast", ({ items := [] } : ForecastData))] :=
  ⟨rfl, rfl⟩

/-- C2 (amended): when the primary source rejects (HTTP, network or JSON
failure) the call fails, rendering the failure result with a retry
affordance, and neither the store nor `appState` is touched; when the
primary resolves but with empty/missing `items` the call also fails with
the retry affordance (but the raw payload has already been stored by the
fetch step). -/
theorem primary_failure_renders_retry (st : AppState) (sResp : FetchResult TempData)
    (pResp : FetchResult ForecastData)
    (hreject : pResp = FetchResult.httpNotOk ∨ pResp = FetchResult.networkError ∨
      pResp = FetchResult.jsonError) :
    ((displayWeather pResp sResp st).1 =
        RenderResult.failure "Unable to load weather forecast" true ∧
      (displayWeather pResp sResp st).2 = st) ∧
    ∀ fd : ForecastData, fd.items = [] →
      (displayWeather (FetchResult.ok fd) sResp st).1 =
        RenderResult.failure "Unable to load weather forecast" true := by
  constructor
  · rcases hreject with h | h | h <;> subst h <;> exact ⟨rfl, rfl⟩
  · intro fd hfd
    simp [displayWeather, fetchWeatherForecast, renderWeatherWidget, hfd]

/-- Witness for C2 at a network rejection and at an empty payload. -/
theorem primary_failure_renders_retry_witness :
    (displayWeather FetchResult.networkError FetchResult.httpNotOk emptyAppState).1 =
      RenderResult.failure "Unable to load weather forecast" true ∧
    (displayWeather FetchResult.networkError FetchResult.httpNotOk emptyAppState).2 =
      emptyAppState ∧
    (displayWeather (FetchResult.ok { items := [] }) FetchResult.httpNotOk emptyAppState).1 =
      RenderResult.failure "Unable to load weather forecast" true := by
  have h := primary_failure_renders_retry emptyAppState FetchResult.httpNotOk
    FetchResult.networkError (Or.inr (Or.inl rfl))
  exact ⟨h.1.1, h.1.2, h.2 { items := [] } rfl⟩

/-- C3 counterexample: the primary succeeds with first-entry high 30 while
the secondary rejects; the call succeeds but the snapshot's
current-temperature field is `none` — it is not populated from the
primary's first entry's high value. -/
theorem secondary_reject_current_temp_absent :
    (displayWeather (FetchResult.ok fairForecastData) FetchResult.networkError
          emptyAppState).1 =
      RenderResult.success
        { currentTemp := none
          cards := [{ dayName := "Today", dateStr := "Dec 5", icon := "☀️",
                      tempHigh := 30, tempLow := 25, desc := "Fair", humidityHigh := 90 }]
          recommendation := "✨ Perfect weather for a beach cleanup! Let\x27s go! 🏖️"
          generalText := none } ∧
    fairDay.temperature.high = 30 :=
  ⟨by decide, rfl⟩

/-- C3 (amended): if the secondary source rejects but the primary succeeds
with at least one forecast entry, the call still succeeds with no exception
propagating; the snapshot's current-temperature field is omitted (`none`),
while the rendered cards (including the first entry's high) come from the
primary payload. -/
theorem secondary_reject_degrades_gracefully (fd : ForecastData) (item : ForecastItem)
    (rest : List ForecastItem) (today : NeaDayForecast) (days : List NeaDayForecast)
    (st : AppState) (sResp : FetchResult TempData)
    (hitems : fd.items = item :: rest) (hdays : item.forecasts = today :: days)
    (hreject : sResp = FetchResult.httpNotOk ∨ sResp = FetchResult.networkError ∨
      sResp = FetchResult.jsonError) :
    (displayWeather (FetchResult.ok fd) sResp st).1 =
      RenderResult.success
        { currentTemp := none
          cards := forecastCardsOf item.forecasts
          recommendation := getCleanupRecommendation today
          generalText := generalTextOf item } ∧
    (forecastCardsOf item.forecasts).map ForecastCard.tempHigh =
      item.forecasts.map (fun d => d.temperature.high) := by
  have hs : fetchCurrentTemp sResp = none := by
    rcases hreject with h | h | h <;> subst h <;> rfl
  constructor
  · simp [displayWeather, fetchWeatherForecast, renderWeatherWidget, hitems, hdays, hs,
      computeCurrentTemp]
  · exact mapWithIndex_map_eq mkForecastCard ForecastCard.tempHigh
      (fun d => d.temperature.high) (fun i a => rfl) 0 item.forecasts

/-- Witness for C3 on the one-day payload with a rejecting secondary. -/
theorem secondary_reject_degrades_gracefully_witness :
    (displayWeather (FetchResult.ok fairForecastData) FetchResult.networkError
          emptyAppState).1 =
      RenderResult.success
        { currentTemp := none
          cards := forecastCardsOf fairItem.forecasts
          recommendation := getCleanupRecommendation fairDay
          generalText := generalTextOf fairItem } :=
  (secondary_reject_degrades_gracefully fairForecastData fairItem [] fairDay [] emptyAppState
    FetchResult.networkError rfl rfl (Or.inr (Or.inl rfl))).1

/-- C4: for a valid payload with `N ≥ 1` forecast entries (and a secondary
response whose handling does not throw), the rendered snapshot has exactly
`N` cards, card `j` is built from entry `j` (original order, no
re-sorting), card 0 is labeled "Today", and every later card carries its
date's weekday name, which is never "Today". -/
theorem forecast_cards_faithful (fd : ForecastData) (item : ForecastItem)
    (rest : List ForecastItem) (today : NeaDayForecast) (days : List NeaDayForecast)
    (st : AppState) (sResp : FetchResult TempData) (ct : Option Rat)
    (hitems : fd.items = item :: rest) (hdays : item.forecasts = today :: days)
    (hct : computeCurrentTemp (fetchCurrentTemp sResp) = Except.ok ct) :
    (displayWeather (FetchResult.ok fd) sResp st).1 =
      RenderResult.success
        { currentTemp := ct
          cards := forecastCardsOf item.forecasts
          recommendation := getCleanupRecommendation today
          generalText := generalTextOf item } ∧
    (forecastCardsOf item.forecasts).length = item.forecasts.length ∧
    (forecastCardsOf item.forecasts).map ForecastCard.desc =
      item.forecasts.map NeaDayForecast.forecast ∧
    (forecastCardsOf item.forecasts).map ForecastCard.dayName =
      "Today" :: days.map (fun d => localeWeekdayShort d.date) ∧
    ∀ lbl ∈ days.map (fun d => localeWeekdayShort d.date), lbl ≠ "Today" := by
  refine ⟨?_, ?_, ?_, ?_, ?_⟩
  · simp [displayWeather, fetchWeatherForecast, renderWeatherWidget, hitems, hdays, hct]
  · exact mapWithIndex_length mkForecastCard 0 item.forecasts
  · exact mapWithIndex_map_eq mkForecastCard ForecastCard.desc
      NeaDayForecast.forecast (fun i a => rfl) 0 item.forecasts
  · rw [hdays]
    simp only [forecastCardsOf, mapWithIndex, List.map]
    refine congrArg₂ _ rfl ?_
    exact mapWithIndex_dayName_from_one 1 days (by omega)
  · intro lbl hl
    simp only [List.mem_map] at hl
    obtain ⟨d, _, rfl⟩ := hl
    exact localeWeekdayShort_ne_today _

/-- Witness for C4 on the two-day payload with a realtime reading. -/
theorem forecast_cards_faithful_witness :
    (displayWeather (FetchResult.ok twoDayForecastData) (FetchResult.ok sampleTempData)
          emptyAppState).1 =
      RenderResult.success
        { currentTemp := some (59 / 2)
          cards := forecastCardsOf twoDayItem.forecasts
          recommendation := getCleanupRecommendation fairDay
          generalText := generalTextOf twoDayItem } ∧
    (forecastCardsOf twoDayItem.forecasts).map ForecastCard.dayName = ["Today", "Sat"] := by
  have h := forecast_cards_faithful twoDayForecastData twoDayItem [] fairDay [rainyDay]
    emptyAppState (FetchResult.ok sampleTempData) (some (59 / 2)) rfl rfl rfl
  exact ⟨h.1, by decide⟩

/-- C7: the pipeline is deterministic and idempotent over its source
responses: a second call with the same responses, starting from the state
the first call left behind, produces the same render result — indeed the
render result is independent of the incoming state, so no hidden persisted
state influences the output. -/
theorem pipeline_idempotent (p : FetchResult ForecastData) (s : FetchResult TempData)
    (st : AppState) :
    (displayWeather p s (displayWeather p s st).2).1 = (displayWeather p s st).1 ∧
    ∀ st' : AppState, (displayWeather p s st').1 = (displayWeather p s st).1 := by
  cases p <;> exact ⟨rfl, fun st' => rfl⟩

/-- C8: every failure mode of the OWM `fetchWeatherData` (non-OK HTTP,
network error, JSON parse error) returns the fixed mock snapshot
("Sample Beach", 24°C, "Clear") with no state change, identical to what a
genuine clear-weather response with that payload would return — so the
caller cannot distinguish an API failure from genuine clear weather. -/
theorem fetch_weather_data_failure_mock (st : OwmAppState) (resp : FetchResult OwmData)
    (hfail : resp = FetchResult.httpNotOk ∨ resp = FetchResult.networkError ∨
      resp = FetchResult.jsonError) :
    (fetchWeatherData resp st).1 = getMockWeatherData ∧
    (fetchWeatherData resp st).2 = st ∧
    getMockWeatherData.name = "Sample Beach" ∧
    getMockWeatherData.main.temp = 24 ∧
    getMockWeatherData.weather.map OwmWeatherEntry.main = ["Clear"] ∧
    (fetchWeatherData resp st).1 = (fetchWeatherData (FetchResult.ok getMockWeatherData) st).1 := by
  rcases hfail with h | h | h <;> subst h <;> exact ⟨rfl, rfl, rfl, rfl, rfl, rfl⟩

/-- Witness for C8 at a network rejection from the fresh state. -/
theorem fetch_weather_data_failure_mock_witness :
    (fetchWeatherData FetchResult.networkError
        { storage := { blob := [], setItemFails := false }, currentWeather := none }).1 =
      getMockWeatherData :=
  (fetch_weather_data_failure_mock
    { storage := { blob := [], setItemFails := false }, currentWeather := none }
    FetchResult.networkError (Or.inr (Or.inl rfl))).1

end ShoreSquad
